import Mathlib

/-!
Shallow embedding of the filesystem-node subsystem of ts-instrumentality
(src/road.ts and src/node.ts).  The two files contain two near-identical
implementations of the same classes; where they differ in a way that matters
to a claim, both variants are embedded (suffix `_road` for road.ts and
`_node` for node.ts).

Modelling conventions:
- Machine integers (POSIX mode bits) are `Nat`; the JavaScript bitwise
  `mode & fs.constants.S_IFMT` depends only on the low 16 bits of the
  operand, so `Nat.land` is an exact model of it.
- The OS filesystem (spec section 1 treats it as an external collaborator)
  is a finite-support map from canonical absolute paths to entries carrying
  mode bits, byte content and an access predicate.  Paths are canonical
  absolute strings, so `ph.resolve` is the identity on them.
- Fallible operations return `Except JsErr`; a thrown JavaScript error is
  the `.error` case.  Mutating operations also return the instance and the
  filesystem after the call, so that "the instance is unchanged when the
  call throws" is expressible.
- Synchronous and asynchronous Node primitives (`fs.*Sync` / `fs/promises`)
  have the same effect semantics and are modelled by one FS-level function
  each; the sync and async wrapper methods of the library are embedded
  separately, following their own source bodies.
-/

namespace Instr

/-- JavaScript errors thrown by the library or by the Node fs layer:
`errno` is an `ErrnoException` with a `code` and path, `jsError` a plain
`new Error(message)`, `abortError` the rejection produced when an
`AbortSignal` fires inside `events.on`. -/
inductive JsErr where
  | errno (code : String) (path : String)
  | jsError (msg : String)
  | abortError
  deriving DecidableEq, Repr

/-- The `code` of an `ErrnoException`, `none` for other errors. -/
def errCode : JsErr → Option String
  | .errno c _ => some c
  | _ => none

/-- One on-disk entry: raw `lstat` mode bits, byte content (meaningful for
regular files) and the outcome of `access(path, mode)` per access mode. -/
structure Entry where
  mode : Nat
  content : List Nat
  accessOk : Nat → Bool

/-- The filesystem state: canonical absolute path to entry. -/
def FS := String → Option Entry

/-- `fs.constants.F_OK`. -/
def fsF_OK : Nat := 0

/-- `fs.access` / `fs.accessSync`: `ENOENT` when the path is absent,
`EACCES` when the entry denies the requested mode. -/
def access (fs : FS) (p : String) (mode : Nat) : Except JsErr Unit :=
  match fs p with
  | none => .error (.errno "ENOENT" p)
  | some e => if e.accessOk mode then .ok () else .error (.errno "EACCES" p)

/-- `fs.existsSync`: true iff the existence check succeeds (Node returns
`false` on any error). -/
def existsSync (fs : FS) (p : String) : Bool :=
  match access fs p fsF_OK with
  | .ok _ => true
  | .error _ => false

/-- `fs.lstat` / `fs.lstatSync` restricted to the mode bits. -/
def lstatMode (fs : FS) (p : String) : Except JsErr Nat :=
  match fs p with
  | none => .error (.errno "ENOENT" p)
  | some e => .ok e.mode

/-- The seven concrete node classes (`road_t` in the source). -/
inductive Kind where
  | file | folder | blockDevice | characterDevice | symbolicLink | fifo | socket
  deriving DecidableEq, Repr

/-- `this.constructor.name` for each concrete class. -/
def className : Kind → String
  | .file => "File"
  | .folder => "Folder"
  | .blockDevice => "BlockDevice"
  | .characterDevice => "CharacterDevice"
  | .symbolicLink => "SymbolicLink"
  | .fifo => "Fifo"
  | .socket => "Socket"

/-- The switch of `roadType` / `road_type`: mask the mode with
`fs.constants.S_IFMT` (0o170000 = 61440) and map the seven POSIX patterns
(S_IFREG 0o100000, S_IFDIR 0o040000, S_IFBLK 0o060000, S_IFCHR 0o020000,
S_IFLNK 0o120000, S_IFIFO 0o010000, S_IFSOCK 0o140000) to the classes;
the default branch of the switch is `none`. -/
def classifyMode (mode : Nat) : Option Kind :=
  let t := Nat.land mode 61440
  if t = 32768 then some .file
  else if t = 16384 then some .folder
  else if t = 24576 then some .blockDevice
  else if t = 8192 then some .characterDevice
  else if t = 40960 then some .symbolicLink
  else if t = 4096 then some .fifo
  else if t = 49152 then some .socket
  else none

/-- The error message of the default branch of `roadType`:
the template literal interpolates the mode and the path-or-mode argument. -/
def unknownKindMsg (mode : Nat) (arg : String) : String :=
  "Unknown mode type " ++ Nat.repr mode ++ " for path/mode: '" ++ arg ++ "'"

/-- `roadType(mode)` on the number branch: no filesystem interaction
(its only input is the mode value and its only output the returned
constructor or the thrown error, so it is side-effect free). -/
def road_type_num (mode : Nat) : Except JsErr Kind :=
  match classifyMode mode with
  | some k => .ok k
  | none => .error (.jsError (unknownKindMsg mode (Nat.repr mode)))

/-- `roadType(path)` on the string branch: `lstatSync` then the same switch. -/
def road_type_path (fs : FS) (p : String) : Except JsErr Kind := do
  let m ← lstatMode fs p
  match classifyMode m with
  | some k => .ok k
  | none => .error (.jsError (unknownKindMsg m p))

/-- `mutable` as left by construction: the base class initialises it to
`true`; `UnusuableRoad` (the four device-like kinds) overrides it to
`false`. -/
def isUnusable : Kind → Bool
  | .blockDevice => true
  | .characterDevice => true
  | .fifo => true
  | .socket => true
  | _ => false

/-- A constructed node instance: its runtime class, its `pointsTo` path,
its `mutable` flag, and whether `Object.freeze(this)` ran on it. -/
structure RoadInst where
  cls : Kind
  pointsTo : String
  mutable : Bool
  frozen : Bool
  deriving DecidableEq, Repr

/-- The type-mismatch message thrown by the `Road` constructor:
it interpolates the resolved path and `this.constructor.name`. -/
def typeMismatchMsg (p : String) (cls : Kind) : String :=
  "Type missmatch: Path '" ++ p ++ "' is not of constructed type " ++ className cls

/-- The `Road` constructor of road.ts: `accessSync(_lookFor, F_OK)`,
resolve (identity on canonical paths), then throw unless
`this instanceof roadType(this.isAt)` — among the seven sibling classes
`instanceof` is class equality.  road.ts's `UnusuableRoad` constructor
additionally runs `Object.freeze(this)`. -/
def road_ctor (fs : FS) (cls : Kind) (lookFor : String) : Except JsErr RoadInst := do
  let _ ← access fs lookFor fsF_OK
  let p := lookFor
  let k ← road_type_path fs p
  if cls = k then
    .ok { cls := cls, pointsTo := p, mutable := !isUnusable cls, frozen := isUnusable cls }
  else
    .error (.jsError (typeMismatchMsg p cls))

/-- The `Road` constructor of node.ts: same checks, but node.ts's
`UnusuableRoad` has no constructor of its own, so no instance is ever
frozen. -/
def node_ctor (fs : FS) (cls : Kind) (lookFor : String) : Except JsErr RoadInst := do
  let _ ← access fs lookFor fsF_OK
  let p := lookFor
  let k ← road_type_path fs p
  if cls = k then
    .ok { cls := cls, pointsTo := p, mutable := !isUnusable cls, frozen := false }
  else
    .error (.jsError (typeMismatchMsg p cls))

/-- `Road.factory` / `Road.factory_sync` (identical in both files):
check access, classify the path, construct the matching class. -/
def factory (fs : FS) (lookFor : String) : Except JsErr RoadInst := do
  let _ ← access fs lookFor fsF_OK
  let k ← road_type_path fs lookFor
  road_ctor fs k lookFor

/-- `ph.join(a, b)` for a canonical absolute `a` and a plain (separator-free)
name `b`; `ph.join(a, "")` is `a`. -/
def joinP (a b : String) : String :=
  if b = "" then a else a ++ "/" ++ b

/-- The components of a canonical absolute path. -/
def splitP (p : String) : List String :=
  (p.splitOn "/").filter (fun s => s ≠ "")

/-- `ph.basename` on a canonical absolute path. -/
def basenameP (p : String) : String :=
  (splitP p).getLastD ""

/-- `ph.dirname` on a canonical absolute path. -/
def dirnameP (p : String) : String :=
  match (splitP p).dropLast with
  | [] => "/"
  | parts => "/" ++ String.intercalate "/" parts

/-- True when the mode bits say "regular file". -/
def isRegularMode (m : Nat) : Bool := Nat.land m 61440 = 32768

/-- True when the mode bits say "directory". -/
def isDirMode (m : Nat) : Bool := Nat.land m 61440 = 16384

/-- A fresh regular-file entry as created by `writeFile` (mode 0o100644). -/
def mkFileEntry (c : List Nat) : Entry :=
  { mode := 33188, content := c, accessOk := fun _ => true }

/-- `fs.readFile(p)` (raw bytes): `ENOENT` when absent, `EISDIR` when the
entry is a directory. -/
def readFileFS (fs : FS) (p : String) : Except JsErr (List Nat) :=
  match fs p with
  | none => .error (.errno "ENOENT" p)
  | some e => if isDirMode e.mode then .error (.errno "EISDIR" p) else .ok e.content

/-- `fs.writeFile(p, c)` (truncate-and-replace; creates the file when
absent; `EISDIR` on a directory). -/
def writeFileFS (fs : FS) (p : String) (c : List Nat) : Except JsErr FS :=
  match fs p with
  | none => .ok (fun q => if q = p then some (mkFileEntry c) else fs q)
  | some e =>
    if isDirMode e.mode then .error (.errno "EISDIR" p)
    else .ok (fun q => if q = p then some { e with content := c } else fs q)

/-- `fs.appendFile(p, c)` (creates the file when absent). -/
def appendFileFS (fs : FS) (p : String) (c : List Nat) : Except JsErr FS :=
  match fs p with
  | none => .ok (fun q => if q = p then some (mkFileEntry c) else fs q)
  | some e =>
    if isDirMode e.mode then .error (.errno "EISDIR" p)
    else .ok (fun q => if q = p then some { e with content := e.content ++ c } else fs q)

/-- `fs.unlink(p)`: `ENOENT` when absent, `EISDIR` on a directory. -/
def unlinkFS (fs : FS) (p : String) : Except JsErr FS :=
  match fs p with
  | none => .error (.errno "ENOENT" p)
  | some e =>
    if isDirMode e.mode then .error (.errno "EISDIR" p)
    else .ok (fun q => if q = p then none else fs q)

/-- `fs.rmdir(p, { recursive: true })`: `ENOENT` when absent, otherwise
removes the entry and its whole subtree. -/
def rmdirRecFS (fs : FS) (p : String) : Except JsErr FS :=
  match fs p with
  | none => .error (.errno "ENOENT" p)
  | some _ => .ok (fun q => if q = p ∨ (p ++ "/").isPrefixOf q then none else fs q)

/-- `fs.rename(old, new)` (atomic): `ENOENT` when the source is absent,
otherwise the source entry and its subtree move to the destination. -/
def renameFS (fs : FS) (oldP newP : String) : Except JsErr FS :=
  match fs oldP with
  | none => .error (.errno "ENOENT" oldP)
  | some _ => .ok (fun q =>
      if q = oldP ∨ (oldP ++ "/").isPrefixOf q then none
      else if q = newP then fs oldP
      else if (newP ++ "/").isPrefixOf q then fs (oldP ++ q.drop newP.length)
      else fs q)

/-- `fs.copyFile(old, new)`: `ENOENT` when the source is absent. -/
def copyFileFS (fs : FS) (oldP newP : String) : Except JsErr FS :=
  match fs oldP with
  | none => .error (.errno "ENOENT" oldP)
  | some e => .ok (fun q => if q = newP then some e else fs q)

/-- `fs.cp(old, new, { recursive: true })`: the source subtree is copied
underneath the destination. -/
def cpRecFS (fs : FS) (oldP newP : String) : Except JsErr FS :=
  match fs oldP with
  | none => .error (.errno "ENOENT" oldP)
  | some _ => .ok (fun q =>
      if q = newP then fs oldP
      else if (newP ++ "/").isPrefixOf q then fs (oldP ++ q.drop newP.length)
      else fs q)

/-- The message of `assert_mutable` in road.ts (node.ts's differs only in
wording; no claim depends on this text). -/
def immutableMsg (inst : RoadInst) : String :=
  "Mutability assertion failed: '" ++ inst.pointsTo ++
    "' is marked as immutable (regardless of OS permissions)"

/-- `assert_mutable()`: throws when the `mutable` flag is false. -/
def assert_mutable (inst : RoadInst) : Except JsErr Unit :=
  if inst.mutable then .ok () else .error (.jsError (immutableMsg inst))

-- Road query methods (identical bodies in road.ts and node.ts).

/-- `exists_sync()`: `fs.existsSync(this.isAt) && (this instanceof
roadType(this.isAt))`.  The `roadType` call sits outside any try block, so
its unknown-kind error propagates. -/
def exists_sync (fs : FS) (inst : RoadInst) : Except JsErr Bool :=
  if existsSync fs inst.pointsTo then do
    let k ← road_type_path fs inst.pointsTo
    .ok (inst.cls = k)
  else
    .ok false

/-- `exists()` (async): `fp.access` and the `instanceof roadType` check both
sit inside the try block, whose catch-all returns `false`. -/
def exists_async (fs : FS) (inst : RoadInst) : Except JsErr Bool :=
  match (do
      let _ ← access fs inst.pointsTo fsF_OK
      let k ← road_type_path fs inst.pointsTo
      .ok (inst.cls = k) : Except JsErr Bool) with
  | .ok b => .ok b
  | .error _ => .ok false

/-- `accessible_sync(mode)`: true on success; `ENOENT` and `EACCES` are
translated to `false`; any other error is rethrown. -/
def accessible_sync (fs : FS) (inst : RoadInst) (mode : Nat) : Except JsErr Bool :=
  match access fs inst.pointsTo mode with
  | .ok _ => .ok true
  | .error e =>
    if errCode e = some "ENOENT" ∨ errCode e = some "EACCES" then .ok false
    else .error e

/-- `accessible(mode)` (async): same try/catch structure as the sync form. -/
def accessible_async (fs : FS) (inst : RoadInst) (mode : Nat) : Except JsErr Bool :=
  match access fs inst.pointsTo mode with
  | .ok _ => .ok true
  | .error e =>
    if errCode e = some "ENOENT" ∨ errCode e = some "EACCES" then .ok false
    else .error e

-- File content methods.

/-- `File.read_bytes_sync()`: `fs.readFileSync(this.isAt)`. -/
def read_bytes_sync (fs : FS) (inst : RoadInst) : Except JsErr (List Nat) :=
  readFileFS fs inst.pointsTo

/-- `File.read_bytes()` (async): `fp.readFile(this.isAt)`. -/
def read_bytes (fs : FS) (inst : RoadInst) : Except JsErr (List Nat) :=
  readFileFS fs inst.pointsTo

/-- `File.write_bytes_sync(content)`: mutation guard, then truncating write. -/
def write_bytes_sync (fs : FS) (inst : RoadInst) (c : List Nat) :
    Except JsErr Unit × FS :=
  match assert_mutable inst with
  | .error e => (.error e, fs)
  | .ok _ =>
    match writeFileFS fs inst.pointsTo c with
    | .ok fs2 => (.ok (), fs2)
    | .error e => (.error e, fs)

/-- `File.write_bytes(content)` (async): same body over the async primitive. -/
def write_bytes (fs : FS) (inst : RoadInst) (c : List Nat) :
    Except JsErr Unit × FS :=
  match assert_mutable inst with
  | .error e => (.error e, fs)
  | .ok _ =>
    match writeFileFS fs inst.pointsTo c with
    | .ok fs2 => (.ok (), fs2)
    | .error e => (.error e, fs)

/-- `File.append_bytes_sync(content)`: mutation guard, then append. -/
def append_bytes_sync (fs : FS) (inst : RoadInst) (c : List Nat) :
    Except JsErr Unit × FS :=
  match assert_mutable inst with
  | .error e => (.error e, fs)
  | .ok _ =>
    match appendFileFS fs inst.pointsTo c with
    | .ok fs2 => (.ok (), fs2)
    | .error e => (.error e, fs)

/-- `File.append_bytes(content)` (async). -/
def append_bytes (fs : FS) (inst : RoadInst) (c : List Nat) :
    Except JsErr Unit × FS :=
  match assert_mutable inst with
  | .error e => (.error e, fs)
  | .ok _ =>
    match appendFileFS fs inst.pointsTo c with
    | .ok fs2 => (.ok (), fs2)
    | .error e => (.error e, fs)

/-- `File.delete_sync()` (also `SymbolicLink.delete_sync`): mutation guard,
then `fs.unlinkSync`. -/
def file_delete_sync (fs : FS) (inst : RoadInst) : Except JsErr Unit × FS :=
  match assert_mutable inst with
  | .error e => (.error e, fs)
  | .ok _ =>
    match unlinkFS fs inst.pointsTo with
    | .ok fs2 => (.ok (), fs2)
    | .error e => (.error e, fs)

/-- `File.delete()` (async). -/
def file_delete (fs : FS) (inst : RoadInst) : Except JsErr Unit × FS :=
  match assert_mutable inst with
  | .error e => (.error e, fs)
  | .ok _ =>
    match unlinkFS fs inst.pointsTo with
    | .ok fs2 => (.ok (), fs2)
    | .error e => (.error e, fs)

/-- `Folder.delete_sync()`: mutation guard, then recursive `rmdirSync`. -/
def folder_delete_sync (fs : FS) (inst : RoadInst) : Except JsErr Unit × FS :=
  match assert_mutable inst with
  | .error e => (.error e, fs)
  | .ok _ =>
    match rmdirRecFS fs inst.pointsTo with
    | .ok fs2 => (.ok (), fs2)
    | .error e => (.error e, fs)

/-- `Folder.delete()` (async). -/
def folder_delete (fs : FS) (inst : RoadInst) : Except JsErr Unit × FS :=
  match assert_mutable inst with
  | .error e => (.error e, fs)
  | .ok _ =>
    match rmdirRecFS fs inst.pointsTo with
    | .ok fs2 => (.ok (), fs2)
    | .error e => (.error e, fs)

/-- `move_sync(_into)` — File, Folder and SymbolicLink have this identical
body: mutation guard; `newPath = _into.join(this.name())`; `renameSync`;
only then `this.pointsTo = newPath`.  The result carries the outcome, the
instance the caller still holds, and the filesystem. -/
def move_sync (fs : FS) (inst into : RoadInst) :
    Except JsErr Unit × RoadInst × FS :=
  match assert_mutable inst with
  | .error e => (.error e, inst, fs)
  | .ok _ =>
    let newPath := joinP into.pointsTo (basenameP inst.pointsTo)
    match renameFS fs inst.pointsTo newPath with
    | .ok fs2 => (.ok (), { inst with pointsTo := newPath }, fs2)
    | .error e => (.error e, inst, fs)

/-- `move(_into)` (async): identical body over the async rename. -/
def move_async (fs : FS) (inst into : RoadInst) :
    Except JsErr Unit × RoadInst × FS :=
  match assert_mutable inst with
  | .error e => (.error e, inst, fs)
  | .ok _ =>
    let newPath := joinP into.pointsTo (basenameP inst.pointsTo)
    match renameFS fs inst.pointsTo newPath with
    | .ok fs2 => (.ok (), { inst with pointsTo := newPath }, fs2)
    | .error e => (.error e, inst, fs)

/-- `rename_sync(_to)` — File, Folder and SymbolicLink share this body:
mutation guard; `newPath = this.parent().join(_to)` (where `parent()` runs
the Folder constructor on `dirname(this.isAt)`); `renameSync`; only then
the `pointsTo` update. -/
def rename_sync (fs : FS) (inst : RoadInst) (dst : String) :
    Except JsErr Unit × RoadInst × FS :=
  match assert_mutable inst with
  | .error e => (.error e, inst, fs)
  | .ok _ =>
    match road_ctor fs .folder (dirnameP inst.pointsTo) with
    | .error e => (.error e, inst, fs)
    | .ok par =>
      let newPath := joinP par.pointsTo dst
      match renameFS fs inst.pointsTo newPath with
      | .ok fs2 => (.ok (), { inst with pointsTo := newPath }, fs2)
      | .error e => (.error e, inst, fs)

/-- `rename(_to)` (async): identical body over the async rename. -/
def rename_async (fs : FS) (inst : RoadInst) (dst : String) :
    Except JsErr Unit × RoadInst × FS :=
  match assert_mutable inst with
  | .error e => (.error e, inst, fs)
  | .ok _ =>
    match road_ctor fs .folder (dirnameP inst.pointsTo) with
    | .error e => (.error e, inst, fs)
    | .ok par =>
      let newPath := joinP par.pointsTo dst
      match renameFS fs inst.pointsTo newPath with
      | .ok fs2 => (.ok (), { inst with pointsTo := newPath }, fs2)
      | .error e => (.error e, inst, fs)

/-- `File.copy_sync(_into)`: no mutation guard; `copyFileSync` then
`new File(newPath)` at the destination (running the full constructor). -/
def file_copy_sync (fs : FS) (inst into : RoadInst) :
    Except JsErr RoadInst × FS :=
  let newPath := joinP into.pointsTo (basenameP inst.pointsTo)
  match copyFileFS fs inst.pointsTo newPath with
  | .error e => (.error e, fs)
  | .ok fs2 =>
    match road_ctor fs2 .file newPath with
    | .ok c => (.ok c, fs2)
    | .error e => (.error e, fs2)

/-- `File.copy(_into)` (async): identical body over the async primitives. -/
def file_copy (fs : FS) (inst into : RoadInst) :
    Except JsErr RoadInst × FS :=
  let newPath := joinP into.pointsTo (basenameP inst.pointsTo)
  match copyFileFS fs inst.pointsTo newPath with
  | .error e => (.error e, fs)
  | .ok fs2 =>
    match road_ctor fs2 .file newPath with
    | .ok c => (.ok c, fs2)
    | .error e => (.error e, fs2)

/-- `File.same_as(other)` (async): `false` outright when the two `isAt`
paths differ; otherwise read both files and compare the buffers. -/
def same_as (fs : FS) (a b : RoadInst) : Except JsErr Bool :=
  if a.pointsTo ≠ b.pointsTo then .ok false
  else do
    let x ← readFileFS fs a.pointsTo
    let y ← readFileFS fs b.pointsTo
    .ok (x = y)

/-- `File.same_as_sync(other)`: same body over the sync reads. -/
def same_as_sync (fs : FS) (a b : RoadInst) : Except JsErr Bool :=
  if a.pointsTo ≠ b.pointsTo then .ok false
  else do
    let x ← readFileFS fs a.pointsTo
    let y ← readFileFS fs b.pointsTo
    .ok (x = y)

-- UnusuableRoad (BlockDevice, CharacterDevice, Fifo, Socket); the method
-- bodies are identical in road.ts and node.ts.

/-- The message template of every `UnusuableRoad` method:
"Cannot <op> type <constructor name> at '<path>'". -/
def unusableMsg (op : String) (inst : RoadInst) : String :=
  "Cannot " ++ op ++ " type " ++ className inst.cls ++ " at '" ++ inst.pointsTo ++ "'"

/-- `UnusuableRoad.delete_sync()`: throws unconditionally, touching nothing. -/
def unusable_delete_sync (fs : FS) (inst : RoadInst) : Except JsErr Unit × FS :=
  (.error (.jsError (unusableMsg "delete" inst)), fs)

/-- `UnusuableRoad.delete()` (async): identical. -/
def unusable_delete (fs : FS) (inst : RoadInst) : Except JsErr Unit × FS :=
  (.error (.jsError (unusableMsg "delete" inst)), fs)

/-- `UnusuableRoad.move_sync()`. -/
def unusable_move_sync (fs : FS) (inst : RoadInst) : Except JsErr Unit × FS :=
  (.error (.jsError (unusableMsg "move" inst)), fs)

/-- `UnusuableRoad.move()` (async). -/
def unusable_move (fs : FS) (inst : RoadInst) : Except JsErr Unit × FS :=
  (.error (.jsError (unusableMsg "move" inst)), fs)

/-- `UnusuableRoad.copy_sync()`. -/
def unusable_copy_sync (fs : FS) (inst : RoadInst) : Except JsErr Unit × FS :=
  (.error (.jsError (unusableMsg "copy" inst)), fs)

/-- `UnusuableRoad.copy()` (async). -/
def unusable_copy (fs : FS) (inst : RoadInst) : Except JsErr Unit × FS :=
  (.error (.jsError (unusableMsg "copy" inst)), fs)

/-- `UnusuableRoad.rename_sync()`. -/
def unusable_rename_sync (fs : FS) (inst : RoadInst) : Except JsErr Unit × FS :=
  (.error (.jsError (unusableMsg "rename" inst)), fs)

/-- `UnusuableRoad.rename()` (async). -/
def unusable_rename (fs : FS) (inst : RoadInst) : Except JsErr Unit × FS :=
  (.error (.jsError (unusableMsg "rename" inst)), fs)

-- TempFile / TempFolder disposal hooks.

/-- road.ts `TempFile[Symbol.dispose]` (and `[Symbol.asyncDispose]`):
`this.delete_sync()` with no guard around it, so any deletion error
propagates out of the dispose hook. -/
def tempFile_dispose_road (fs : FS) (inst : RoadInst) : Except JsErr Unit × FS :=
  file_delete_sync fs inst

/-- node.ts `TempFile[Symbol.dispose]` (and `[Symbol.asyncDispose]`):
`try { this.delete_sync() } catch { console.error(...) }` — a failing
deletion is swallowed (the log line has no further observable effect). -/
def tempFile_dispose_node (fs : FS) (inst : RoadInst) : Except JsErr Unit × FS :=
  match file_delete_sync fs inst with
  | (.ok _, fs2) => (.ok (), fs2)
  | (.error _, fs2) => (.ok (), fs2)

/-- road.ts `TempFolder[Symbol.dispose]` (and `[Symbol.asyncDispose]`):
unguarded `this.delete_sync()` (recursive rmdir). -/
def tempFolder_dispose_road (fs : FS) (inst : RoadInst) : Except JsErr Unit × FS :=
  folder_delete_sync fs inst

/-- node.ts `TempFolder[Symbol.dispose]` (and `[Symbol.asyncDispose]`):
the recursive deletion wrapped in try/catch. -/
def tempFolder_dispose_node (fs : FS) (inst : RoadInst) : Except JsErr Unit × FS :=
  match folder_delete_sync fs inst with
  | (.ok _, fs2) => (.ok (), fs2)
  | (.error _, fs2) => (.ok (), fs2)

-- Folder.find (identical bodies in road.ts and node.ts; the sync and async
-- forms also coincide).

/-- `Folder.find_sync(name, expectedType?)`: inside one try block, check
access at `this.join(name)`, build the child through the factory, then
apply the optional `instanceof` filter; the catch-all returns null, so both
"absent" and "present but wrong kind" give `none`, never an error. -/
def find_sync (fs : FS) (folder : RoadInst) (nm : String) (filt : Option Kind) :
    Option RoadInst :=
  let p := joinP folder.pointsTo nm
  match (do
      let _ ← access fs p fsF_OK
      factory fs p : Except JsErr RoadInst) with
  | .error _ => none
  | .ok found =>
    match filt with
    | none => some found
    | some k => if found.cls = k then some found else none

/-- `Folder.find(name, expectedType?)` (async): same body over the async
primitives. -/
def find_async (fs : FS) (folder : RoadInst) (nm : String) (filt : Option Kind) :
    Option RoadInst :=
  let p := joinP folder.pointsTo nm
  match (do
      let _ ← access fs p fsF_OK
      factory fs p : Except JsErr RoadInst) with
  | .error _ => none
  | .ok found =>
    match filt with
    | none => some found
    | some k => if found.cls = k then some found else none

-- File.it_bytes_sync / it_bytes: chunked reading.

/-- `File.it_bytes_sync(chunkSize)` / `File.it_bytes(chunkSize)` (their
loops are identical): each `readSync(fd, buffer, 0, chunkSize, null)`
returns the next `min chunkSize remaining` bytes of the file; a chunk is
yielded when more than zero bytes were read, and the loop continues while
a full chunk was read.  The list collects the chunk values as observed at
each yield.  `xs` is the file's byte content at open time; for
`chunkSize = 0` the source loop never terminates, so the model is
meaningful only for positive chunk sizes (the documented default is 1024). -/
def it_bytes_chunks (chunkSize : Nat) (xs : List Nat) : List (List Nat) :=
  if chunkSize = 0 then []
  else if _h : xs.length ≤ chunkSize then
    if xs.isEmpty then [] else [xs.take chunkSize]
  else
    xs.take chunkSize :: it_bytes_chunks chunkSize (xs.drop chunkSize)
termination_by xs.length
decreasing_by
  simp only [List.length_drop]
  omega

-- Road.until_accessible: event-loop model.

/-- The observable actions of one `until_accessible` run, in order:
creating the `fs.watch` watcher, an accessibility check with its outcome,
a run of the `_onEachAttempt` callback, closing the watcher. -/
inductive UAAct where
  | watchStart
  | check (ok : Bool)
  | callbackRun
  | watchClose
  deriving DecidableEq, Repr

/-- How one `until_accessible` run ends: the path became accessible; the
abort signal fired (the `events.on` iterator rejects); `fs.watch` itself
threw (e.g. the path cannot be watched); or the run is still suspended
waiting for further notifications. -/
inductive UAOutcome where
  | success
  | abortedErr
  | watchErr
  | waits
  deriving DecidableEq, Repr

/-- The notification loop of `until_accessible`: `notifs` lists the outcome
of `this.accessible(mode)` as evaluated after each successive change
notification; `thenAborts` says whether the abort signal fires after the
listed notifications. -/
def uaLoop (notifs : List Bool) (thenAborts : Bool) : UAOutcome × List UAAct :=
  match notifs with
  | [] => if thenAborts then (.abortedErr, [.watchClose]) else (.waits, [])
  | b :: rest =>
    if b then (.success, [.check true, .watchClose])
    else
      let (out, tr) := uaLoop rest thenAborts
      (out, .check false :: .callbackRun :: tr)

/-- `Road.until_accessible(mode, abortSignal, onEachAttempt?)`, identical in
road.ts and node.ts: `fs.watch(this.isAt)` runs FIRST (throwing when the
path cannot be watched, before any accessibility check); then one
`accessible` check returns early on success; otherwise each change
notification triggers a re-check, with the callback after each failed
re-check, until a check succeeds or the signal fires; the watcher is closed
in the `finally` block.  `watchable` is whether `fs.watch` succeeds,
`first` the outcome of the initial accessibility check. -/
def until_accessible (watchable first : Bool) (notifs : List Bool)
    (thenAborts : Bool) : UAOutcome × List UAAct :=
  if !watchable then (.watchErr, [])
  else if first then (.success, [.watchStart, .check first, .watchClose])
  else
    let (out, tr) := uaLoop notifs thenAborts
    (out, .watchStart :: .check first :: tr)

/-- The behaviour claimed by the spec for `wait_until_accessible`, as
amended: the subscription is created first (so an unwatchable path fails
immediately), then one check; on initial success return at once; otherwise
one re-check per notification with the callback after each failure, until a
re-check succeeds or the signal fires. -/
def ua_amended_spec (watchable first : Bool) (notifs : List Bool)
    (thenAborts : Bool) : UAOutcome × List UAAct :=
  if !watchable then (.watchErr, [])
  else if first then (.success, [.watchStart, .check true, .watchClose])
  else
    let failed := (notifs.takeWhile (fun b => !b)).length
    let tr := [UAAct.watchStart, UAAct.check false] ++
      (List.replicate failed [UAAct.check false, UAAct.callbackRun]).flatten
    if failed < notifs.length then (.success, tr ++ [.check true, .watchClose])
    else if thenAborts then (.abortedErr, tr ++ [.watchClose])
    else (.waits, tr)

-- Concrete fixtures used by witnesses and counterexamples.

/-- "Needle occurs in hay": the error message `hay` names `needle`. -/
def mentions (needle hay : String) : Prop :=
  needle.toList <:+: hay.toList

instance mentionsDec (needle hay : String) : Decidable (mentions needle hay) :=
  inferInstanceAs (Decidable (needle.toList <:+: hay.toList))

/-- A directory entry (mode 0o040755). -/
def dirEntry : Entry := { mode := 16877, content := [], accessOk := fun _ => true }

/-- A block-device entry (mode 0o060660). -/
def blkEntry : Entry := { mode := 25008, content := [], accessOk := fun _ => true }

/-- An entry whose type bits (0o160000) match none of the seven known
patterns. -/
def unknownEntry : Entry := { mode := 57344, content := [], accessOk := fun _ => true }

/-- A small fixture filesystem: a directory, two regular files with equal
content, a block device, and an entry of unknown kind. -/
def fsFix : FS := fun p =>
  if p = "/d" then some dirEntry
  else if p = "/f" then some (mkFileEntry [104, 105])
  else if p = "/g" then some (mkFileEntry [104, 105])
  else if p = "/dev/sda" then some blkEntry
  else if p = "/u" then some unknownEntry
  else none

/-- The filesystem with no entries at all. -/
def emptyFS : FS := fun _ => none

/-- The `File` instance at `/f` of `fsFix`, as the constructor builds it. -/
def instF : RoadInst := { cls := .file, pointsTo := "/f", mutable := true, frozen := false }

/-- The `File` instance at `/g` of `fsFix`. -/
def instG : RoadInst := { cls := .file, pointsTo := "/g", mutable := true, frozen := false }

/-- The `Folder` instance at `/d` of `fsFix`. -/
def instD : RoadInst := { cls := .folder, pointsTo := "/d", mutable := true, frozen := false }

/-- A `File` instance whose path now holds the unknown-kind entry `/u`. -/
def instU : RoadInst := { cls := .file, pointsTo := "/u", mutable := true, frozen := false }

/-- The road.ts `BlockDevice` instance at `/dev/sda` of `fsFix`. -/
def instBlk : RoadInst :=
  { cls := .blockDevice, pointsTo := "/dev/sda", mutable := false, frozen := true }

/-- A `TempFile` path and filesystem as left right after construction. -/
def tmpPath : String := "/tmp/tempfile_1_aaaa.tmp"

/-- The `TempFile` instance at `tmpPath` (mutable, as `TempFile` forces). -/
def tmpInst : RoadInst := { cls := .file, pointsTo := tmpPath, mutable := true, frozen := false }

/-- The filesystem right after the `TempFile` constructor ran. -/
def fsTmp : FS := fun q => if q = tmpPath then some (mkFileEntry []) else none

/-- A `TempFolder` path. -/
def tmpDirPath : String := "/tmp/tempfolder_1_aaaa"

/-- The `TempFolder` instance at `tmpDirPath`. -/
def tmpDirInst : RoadInst :=
  { cls := .folder, pointsTo := tmpDirPath, mutable := true, frozen := false }

/-- The filesystem right after the `TempFolder` constructor ran. -/
def fsTmpDir : FS := fun q => if q = tmpDirPath then some dirEntry else none

-- Helper lemmas.

/-- `String.toList` distributes over append. -/
theorem toList_append_eq (s t : String) : (s ++ t).toList = s.toList ++ t.toList := by
  simp [String.toList, String.data_append]

/-- `mentions` holds as soon as the haystack splits around the needle. -/
theorem mentions_of_split (needle hay : String) (pre post : List Char)
    (h : hay.toList = pre ++ needle.toList ++ post) : mentions needle hay :=
  ⟨pre, post, h.symm⟩

/-- The constructor's mismatch message names the constructed class. -/
theorem typeMismatchMsg_mentions_cls (p : String) (c : Kind) :
    mentions (className c) (typeMismatchMsg p c) := by
  apply mentions_of_split _ _
    (("Type missmatch: Path '" ++ p ++ "' is not of constructed type ").toList) []
  simp [typeMismatchMsg, toList_append_eq]

/-- The constructor's mismatch message names the path. -/
theorem typeMismatchMsg_mentions_path (p : String) (c : Kind) :
    mentions p (typeMismatchMsg p c) := by
  apply mentions_of_split _ _ ("Type missmatch: Path '".toList)
    (("' is not of constructed type " ++ className c).toList)
  simp [typeMismatchMsg, toList_append_eq]

/-- Every `UnusuableRoad` message names the concrete class. -/
theorem unusableMsg_mentions_cls (op : String) (inst : RoadInst) :
    mentions (className inst.cls) (unusableMsg op inst) := by
  apply mentions_of_split _ _ (("Cannot " ++ op ++ " type ").toList)
    ((" at '" ++ inst.pointsTo ++ "'").toList)
  simp [unusableMsg, toList_append_eq]

/-- Every `UnusuableRoad` message names the path. -/
theorem unusableMsg_mentions_path (op : String) (inst : RoadInst) :
    mentions inst.pointsTo (unusableMsg op inst) := by
  apply mentions_of_split _ _ (("Cannot " ++ op ++ " type " ++ className inst.cls ++ " at '").toList)
    ("'".toList)
  simp [unusableMsg, toList_append_eq]

-- C2.

/-- C2: for every mode value, `roadType` on the number branch returns the
constructor selected by the POSIX `S_IFMT` mask — regular file to `File`,
directory to `Folder`, block device to `BlockDevice`, character device to
`CharacterDevice`, symbolic link to `SymbolicLink`, fifo to `Fifo`, socket
to `Socket` — and throws the unknown-kind error when the masked bits match
none of the seven patterns.  The embedding is a pure function of the mode,
which is the side-effect-freeness of the source's number branch. -/
theorem road_type_num_spec (mode : Nat) :
    (Nat.land mode 61440 = 32768 → road_type_num mode = .ok .file) ∧
    (Nat.land mode 61440 = 16384 → road_type_num mode = .ok .folder) ∧
    (Nat.land mode 61440 = 24576 → road_type_num mode = .ok .blockDevice) ∧
    (Nat.land mode 61440 = 8192 → road_type_num mode = .ok .characterDevice) ∧
    (Nat.land mode 61440 = 40960 → road_type_num mode = .ok .symbolicLink) ∧
    (Nat.land mode 61440 = 4096 → road_type_num mode = .ok .fifo) ∧
    (Nat.land mode 61440 = 49152 → road_type_num mode = .ok .socket) ∧
    (Nat.land mode 61440 ∉ ([32768, 16384, 24576, 8192, 40960, 4096, 49152] : List Nat) →
      road_type_num mode = .error (.jsError (unknownKindMsg mode (Nat.repr mode)))) := by
  refine ⟨fun h => by simp [road_type_num, classifyMode, h],
    fun h => by simp [road_type_num, classifyMode, h],
    fun h => by simp [road_type_num, classifyMode, h],
    fun h => by simp [road_type_num, classifyMode, h],
    fun h => by simp [road_type_num, classifyMode, h],
    fun h => by simp [road_type_num, classifyMode, h],
    fun h => by simp [road_type_num, classifyMode, h],
    fun h => ?_⟩
  simp only [List.mem_cons, List.mem_singleton, not_or] at h
  obtain ⟨h1, h2, h3, h4, h5, h6, h7⟩ := h
  simp [road_type_num, classifyMode, h1, h2, h3, h4, h5, h6, h7]

/-- Witness for C2 at two concrete modes: 0o100644 (a regular file) and 7
(no type bits at all). -/
theorem road_type_num_spec_witness :
    road_type_num 33188 = .ok .file ∧
    road_type_num 7 = .error (.jsError (unknownKindMsg 7 (Nat.repr 7))) :=
  ⟨(road_type_num_spec 33188).1 (by decide),
   (road_type_num_spec 7).2.2.2.2.2.2.2 (by decide)⟩

-- C1.

/-- C1 counterexample: at the fixture directory `/d`, constructing `File`
directly throws the type-mismatch error, but that error's message does not
name the actual on-disk kind (`Folder`) — it only names the constructed
type and the path — so the claim that the message names both the expected
and the actual kind fails. -/
theorem ctor_mismatch_message_counterexample :
    road_ctor fsFix .file "/d" = .error (.jsError (typeMismatchMsg "/d" .file)) ∧
    ¬ mentions (className .folder) (typeMismatchMsg "/d" .file) := by
  constructor
  · rfl
  · decide

/-- C1 as amended: for every path accessible and classifiable as kind `k`,
the factory returns an instance of exactly the class representing `k` (with
the construction-time defaults for `mutable` and frozenness), and directly
constructing any other concrete class `c` at that path throws the
type-mismatch error — whose message names the expected (constructed) kind
and the path, though not the actual kind. -/
theorem factory_and_ctor_spec (fs : FS) (p : String) (e : Entry) (k c : Kind)
    (he : fs p = some e) (ha : e.accessOk fsF_OK = true)
    (hk : classifyMode e.mode = some k) :
    factory fs p = .ok { cls := k, pointsTo := p,
                         mutable := !isUnusable k, frozen := isUnusable k } ∧
    (c ≠ k →
      road_ctor fs c p = .error (.jsError (typeMismatchMsg p c)) ∧
      mentions (className c) (typeMismatchMsg p c) ∧
      mentions p (typeMismatchMsg p c)) := by
  constructor
  · simp [factory, road_ctor, road_type_path, lstatMode, access, he, ha, hk,
      bind, Except.bind]
  · intro hne
    refine ⟨?_, typeMismatchMsg_mentions_cls p c, typeMismatchMsg_mentions_path p c⟩
    simp [road_ctor, road_type_path, lstatMode, access, he, ha, hk, hne,
      bind, Except.bind]

/-- Witness for C1 (amended) at the fixture regular file `/f`: the factory
yields the `File` instance, and constructing `Folder` there throws the
mismatch error. -/
theorem factory_and_ctor_spec_witness :
    factory fsFix "/f" = .ok instF ∧
    road_ctor fsFix .folder "/f" = .error (.jsError (typeMismatchMsg "/f" .folder)) :=
  ⟨(factory_and_ctor_spec fsFix "/f" (mkFileEntry [104, 105]) .file .folder
      rfl rfl (by decide)).1,
   ((factory_and_ctor_spec fsFix "/f" (mkFileEntry [104, 105]) .file .folder
      rfl rfl (by decide)).2 (by decide)).1⟩

-- C3.

/-- C3: evaluation at the failing input.  After a `TempFile` (road.ts) has
been disposed once — which deletes the entry — invoking its dispose hook a
second time throws `ENOENT` out of the unguarded `delete_sync`, instead of
being a no-op; the same holds for `TempFolder`.  node.ts's dispose hooks,
which wrap the deletion in try/catch, return without raising on the same
second call, matching the spec's idempotent-disposal contract. -/
theorem temp_second_dispose_raises :
    (tempFile_dispose_road fsTmp tmpInst).1 = .ok () ∧
    (tempFile_dispose_road fsTmp tmpInst).2 tmpPath = none ∧
    (tempFile_dispose_road (tempFile_dispose_road fsTmp tmpInst).2 tmpInst).1 =
      .error (.errno "ENOENT" tmpPath) ∧
    (tempFile_dispose_node (tempFile_dispose_road fsTmp tmpInst).2 tmpInst).1 = .ok () ∧
    (tempFolder_dispose_road fsTmpDir tmpDirInst).1 = .ok () ∧
    (tempFolder_dispose_road fsTmpDir tmpDirInst).2 tmpDirPath = none ∧
    (tempFolder_dispose_road (tempFolder_dispose_road fsTmpDir tmpDirInst).2 tmpDirInst).1 =
      .error (.errno "ENOENT" tmpDirPath) ∧
    (tempFolder_dispose_node (tempFolder_dispose_road fsTmpDir tmpDirInst).2 tmpDirInst).1 =
      .ok () := by
  refine ⟨rfl, ?_, ?_, ?_, rfl, ?_, ?_, ?_⟩ <;> rfl

-- C4.

/-- C4 counterexample: node.ts's `UnusuableRoad` has no constructor of its
own, so `Object.freeze` never runs on its instances — the `BlockDevice`
built by node.ts at the fixture device path is not frozen, refuting "the
instance is frozen after construction" for node.ts (road.ts does freeze). -/
theorem node_unusable_not_frozen :
    node_ctor fsFix .blockDevice "/dev/sda" =
      .ok { cls := .blockDevice, pointsTo := "/dev/sda",
            mutable := false, frozen := false } := by
  rfl

/-- C4 as amended: for every device-like kind, `mutable` is false after
construction (and road.ts instances are additionally frozen, while node.ts
instances are not); each of delete, move, copy and rename, in both the sync
and the async form, throws an error whose message names the concrete kind
and the path, and leaves the filesystem exactly as it was. -/
theorem unusable_contract (fs : FS) (p : String) (e : Entry) (k : Kind)
    (inst : RoadInst)
    (hk : isUnusable k = true) (he : fs p = some e)
    (ha : e.accessOk fsF_OK = true) (hc : classifyMode e.mode = some k)
    (_hi : isUnusable inst.cls = true) :
    road_ctor fs k p =
      .ok { cls := k, pointsTo := p, mutable := false, frozen := true } ∧
    node_ctor fs k p =
      .ok { cls := k, pointsTo := p, mutable := false, frozen := false } ∧
    unusable_delete_sync fs inst = (.error (.jsError (unusableMsg "delete" inst)), fs) ∧
    unusable_delete fs inst = (.error (.jsError (unusableMsg "delete" inst)), fs) ∧
    unusable_move_sync fs inst = (.error (.jsError (unusableMsg "move" inst)), fs) ∧
    unusable_move fs inst = (.error (.jsError (unusableMsg "move" inst)), fs) ∧
    unusable_copy_sync fs inst = (.error (.jsError (unusableMsg "copy" inst)), fs) ∧
    unusable_copy fs inst = (.error (.jsError (unusableMsg "copy" inst)), fs) ∧
    unusable_rename_sync fs inst = (.error (.jsError (unusableMsg "rename" inst)), fs) ∧
    unusable_rename fs inst = (.error (.jsError (unusableMsg "rename" inst)), fs) ∧
    (∀ op, mentions (className inst.cls) (unusableMsg op inst) ∧
           mentions inst.pointsTo (unusableMsg op inst)) := by
  refine ⟨?_, ?_, rfl, rfl, rfl, rfl, rfl, rfl, rfl, rfl,
    fun op => ⟨unusableMsg_mentions_cls op inst, unusableMsg_mentions_path op inst⟩⟩
  · simp [road_ctor, road_type_path, lstatMode, access, he, ha, hc, hk,
      bind, Except.bind]
  · simp [node_ctor, road_type_path, lstatMode, access, he, ha, hc, hk,
      bind, Except.bind]

/-- Witness for C4 (amended) at the fixture block device `/dev/sda`. -/
theorem unusable_contract_witness :
    road_ctor fsFix .blockDevice "/dev/sda" = .ok instBlk ∧
    unusable_delete_sync fsFix instBlk =
      (.error (.jsError (unusableMsg "delete" instBlk)), fsFix) :=
  ⟨(unusable_contract fsFix "/dev/sda" blkEntry .blockDevice instBlk
      (by decide) rfl rfl (by decide) (by decide)).1,
   (unusable_contract fsFix "/dev/sda" blkEntry .blockDevice instBlk
      (by decide) rfl rfl (by decide) (by decide)).2.2.1⟩

-- C5.

/-- C5 counterexample: on a path that exists but carries mode bits matching
none of the seven kinds (fixture `/u`, type bits 0o160000), `exists_sync`
propagates the unknown-kind error — the `roadType` call sits outside any
try block — while the async `exists` catches it and returns `false`, so the
blocking and suspending forms do not have identical error conditions. -/
theorem exists_sync_async_diverge :
    exists_sync fsFix instU = .error (.jsError (unknownKindMsg 57344 "/u")) ∧
    exists_async fsFix instU = .ok false := by
  exact ⟨rfl, rfl⟩

/-- C5 as amended: for each paired operation — accessibility probing, byte
read, truncating write, append, delete (file and folder), move, copy,
rename and content comparison — the blocking and the suspending form
produce identical results, identical error conditions and identical
filesystem effects on every input; the `exists_sync`/`exists` pair agrees
whenever the entry at the instance's path (if any) carries mode bits of a
known kind. -/
theorem sync_async_pairs_agree (fs : FS) (inst into : RoadInst) (mode : Nat)
    (c : List Nat) (dst : String)
    (hknown : ((fs inst.pointsTo).all fun e => (classifyMode e.mode).isSome) = true) :
    exists_sync fs inst = exists_async fs inst ∧
    accessible_sync fs inst mode = accessible_async fs inst mode ∧
    read_bytes_sync fs inst = read_bytes fs inst ∧
    write_bytes_sync fs inst c = write_bytes fs inst c ∧
    append_bytes_sync fs inst c = append_bytes fs inst c ∧
    file_delete_sync fs inst = file_delete fs inst ∧
    folder_delete_sync fs inst = folder_delete fs inst ∧
    move_sync fs inst into = move_async fs inst into ∧
    file_copy_sync fs inst into = file_copy fs inst into ∧
    rename_sync fs inst dst = rename_async fs inst dst ∧
    same_as_sync fs inst into = same_as fs inst into := by
  refine ⟨?_, rfl, rfl, rfl, rfl, rfl, rfl, rfl, rfl, rfl, rfl⟩
  cases hfs : fs inst.pointsTo with
  | none =>
    simp [exists_sync, exists_async, existsSync, access, road_type_path,
      lstatMode, hfs, bind, Except.bind]
  | some e =>
    rw [hfs] at hknown
    simp only [Option.all_some] at hknown
    obtain ⟨k, hk⟩ := Option.isSome_iff_exists.mp hknown
    by_cases hacc : e.accessOk fsF_OK = true
    · simp [exists_sync, exists_async, existsSync, access, road_type_path,
        lstatMode, hfs, hacc, hk, bind, Except.bind]
    · simp [exists_sync, exists_async, existsSync, access, road_type_path,
        lstatMode, hfs, hacc, hk, bind, Except.bind]

/-- Witness for C5 (amended) at the fixture regular file `/f`. -/
theorem sync_async_pairs_agree_witness :
    exists_sync fsFix instF = exists_async fsFix instF :=
  (sync_async_pairs_agree fsFix instF instD 0 [] "x" (by decide)).1

-- C7.

/-- C7: `same_as` / `same_as_sync` returns true only when both files have
the same path identity and the (then necessarily identical) byte contents
were read successfully; for two distinct paths it returns false outright,
even when the two files hold identical bytes; and the async form agrees
with the sync form. -/
theorem same_as_spec (fs : FS) (a b : RoadInst) :
    same_as fs a b = same_as_sync fs a b ∧
    (same_as_sync fs a b = .ok true →
      a.pointsTo = b.pointsTo ∧
      ∃ bytes, readFileFS fs a.pointsTo = .ok bytes ∧
        readFileFS fs b.pointsTo = .ok bytes) ∧
    (a.pointsTo ≠ b.pointsTo → same_as_sync fs a b = .ok false) := by
  refine ⟨rfl, ?_, ?_⟩
  · intro h
    by_cases hp : a.pointsTo = b.pointsTo
    · refine ⟨hp, ?_⟩
      rw [hp]
      simp only [same_as_sync, hp, ne_eq, not_true_eq_false, if_false] at h
      cases hx : readFileFS fs b.pointsTo with
      | error e => rw [hx] at h; simp [bind, Except.bind] at h
      | ok v => exact ⟨v, rfl, rfl⟩
    · simp [same_as_sync, hp] at h
  · intro hne
    simp [same_as_sync, hne]

/-- Witness for C7 at the fixture files `/f` and `/g`, which are distinct
paths holding identical bytes: the comparison is false. -/
theorem same_as_spec_witness :
    same_as_sync fsFix instF instG = .ok false :=
  (same_as_spec fsFix instF instG).2.2 (by decide)

-- C8.

/-- C8: `find_sync` / `find` checks `name` as an immediate child of the
folder; when the child is absent it returns null (not an error), with or
without a kind filter; when the factory yields a child of the wrong kind
for the filter it also returns null; and when the child matches the filter
(or no filter is given) it returns the typed node the factory built. -/
theorem find_spec (fs : FS) (folder : RoadInst) (nm : String) (k : Kind) :
    (fs (joinP folder.pointsTo nm) = none →
      find_sync fs folder nm none = none ∧
      find_sync fs folder nm (some k) = none ∧
      find_async fs folder nm (some k) = none) ∧
    (∀ found, factory fs (joinP folder.pointsTo nm) = .ok found →
      find_sync fs folder nm none = some found ∧
      (found.cls = k → find_sync fs folder nm (some k) = some found ∧
                       find_async fs folder nm (some k) = some found) ∧
      (found.cls ≠ k → find_sync fs folder nm (some k) = none ∧
                       find_async fs folder nm (some k) = none)) := by
  constructor
  · intro habs
    refine ⟨?_, ?_, ?_⟩ <;>
      simp [find_sync, find_async, access, habs, bind, Except.bind]
  · intro found hfac
    have hacc : access fs (joinP folder.pointsTo nm) fsF_OK = .ok () := by
      cases hax : access fs (joinP folder.pointsTo nm) fsF_OK with
      | ok u => cases u; rfl
      | error e => simp [factory, hax, bind, Except.bind] at hfac
    refine ⟨?_, fun hk => ?_, fun hk => ?_⟩
    · simp [find_sync, find_async, hacc, hfac, bind, Except.bind]
    · constructor <;> simp [find_sync, find_async, hacc, hfac, hk, bind, Except.bind]
    · constructor <;> simp [find_sync, find_async, hacc, hfac, hk, bind, Except.bind]

/-- Witness for C8: in the fixture, `/d` has no child named `x`, and the
lookup returns null rather than raising. -/
theorem find_spec_witness :
    find_sync fsFix instD "x" (some .file) = none :=
  ((find_spec fsFix instD "x" .file).1 rfl).2.1

-- C6.

/-- Concatenating all chunks reproduces the content. -/
theorem it_bytes_chunks_flatten (c : Nat) (hc : 0 < c) (xs : List Nat) :
    (it_bytes_chunks c xs).flatten = xs := by
  induction xs using it_bytes_chunks.induct c with
  | case1 xs h0 => omega
  | case2 xs h0 hle hemp =>
    rw [it_bytes_chunks, if_neg h0, dif_pos hle, if_pos hemp]
    simp [List.isEmpty_iff.mp hemp]
  | case3 xs h0 hle hemp =>
    rw [it_bytes_chunks, if_neg h0, dif_pos hle, if_neg hemp]
    simp [List.take_of_length_le hle]
  | case4 xs h0 hgt ih =>
    rw [it_bytes_chunks, if_neg h0, dif_neg hgt]
    simp only [List.flatten_cons, ih, List.take_append_drop]

/-- The chunk list is nonempty as soon as the content is. -/
theorem it_bytes_chunks_ne_nil (c : Nat) (hc : 0 < c) (xs : List Nat)
    (hxs : xs ≠ []) : it_bytes_chunks c xs ≠ [] := by
  induction xs using it_bytes_chunks.induct c with
  | case1 xs h0 => omega
  | case2 xs h0 hle hemp => exact absurd (List.isEmpty_iff.mp hemp) hxs
  | case3 xs h0 hle hemp =>
    rw [it_bytes_chunks, if_neg h0, dif_pos hle, if_neg hemp]
    simp
  | case4 xs h0 hgt ih =>
    rw [it_bytes_chunks, if_neg h0, dif_neg hgt]
    simp

/-- Every chunk is nonempty and no longer than the chunk size. -/
theorem it_bytes_chunks_len_le (c : Nat) (hc : 0 < c) (xs : List Nat) :
    ∀ l ∈ it_bytes_chunks c xs, 0 < l.length ∧ l.length ≤ c := by
  induction xs using it_bytes_chunks.induct c with
  | case1 xs h0 => omega
  | case2 xs h0 hle hemp =>
    rw [it_bytes_chunks, if_neg h0, dif_pos hle, if_pos hemp]
    simp
  | case3 xs h0 hle hemp =>
    rw [it_bytes_chunks, if_neg h0, dif_pos hle, if_neg hemp]
    intro l hl
    simp only [List.mem_singleton] at hl
    subst hl
    have hxe : xs ≠ [] := fun h => hemp (by simp [h])
    constructor
    · simp [List.length_take]
      exact ⟨hc, List.length_pos.mpr hxe⟩
    · simp [List.length_take]
  | case4 xs h0 hgt ih =>
    rw [it_bytes_chunks, if_neg h0, dif_neg hgt]
    intro l hl
    rcases List.mem_cons.mp hl with h | h
    · subst h
      refine ⟨?_, ?_⟩
      · simp [List.length_take]
        omega
      · simp [List.length_take]
    · exact ih l h

/-- Every chunk except possibly the last has length exactly the chunk
size. -/
theorem it_bytes_chunks_dropLast_len (c : Nat) (hc : 0 < c) (xs : List Nat) :
    ∀ l ∈ (it_bytes_chunks c xs).dropLast, l.length = c := by
  induction xs using it_bytes_chunks.induct c with
  | case1 xs h0 => omega
  | case2 xs h0 hle hemp =>
    rw [it_bytes_chunks, if_neg h0, dif_pos hle, if_pos hemp]
    simp
  | case3 xs h0 hle hemp =>
    rw [it_bytes_chunks, if_neg h0, dif_pos hle, if_neg hemp]
    simp
  | case4 xs h0 hgt ih =>
    rw [it_bytes_chunks, if_neg h0, dif_neg hgt]
    have hdne : xs.drop c ≠ [] :=
      List.ne_nil_of_length_pos (by simp [List.length_drop]; omega)
    rw [List.dropLast_cons_of_ne_nil (it_bytes_chunks_ne_nil c hc _ hdne)]
    intro l hl
    rcases List.mem_cons.mp hl with h | h
    · subst h
      simp [List.length_take]
      omega
    · exact ih l h

/-- The length of the last chunk: the remainder of the content length
modulo the chunk size, or a full chunk when the size divides evenly. -/
theorem it_bytes_chunks_getLast_len (c : Nat) (hc : 0 < c) (xs : List Nat)
    (hxs : xs ≠ []) :
    (it_bytes_chunks c xs).getLast?.map List.length =
      some (if xs.length % c = 0 then c else xs.length % c) := by
  induction xs using it_bytes_chunks.induct c with
  | case1 xs h0 => omega
  | case2 xs h0 hle hemp => exact absurd (List.isEmpty_iff.mp hemp) hxs
  | case3 xs h0 hle hemp =>
    rw [it_bytes_chunks, if_neg h0, dif_pos hle, if_neg hemp]
    have hxe : xs ≠ [] := fun h => hemp (by simp [h])
    have hpos : 0 < xs.length := List.length_pos.mpr hxe
    simp only [List.getLast?_singleton, Option.map_some, List.take_of_length_le hle]
    rcases Nat.lt_or_ge xs.length c with hlt | hge
    · rw [Nat.mod_eq_of_lt hlt, if_neg (by omega)]
      simp
    · have : xs.length = c := by omega
      rw [this, Nat.mod_self, if_pos rfl]
      simp [this]
  | case4 xs h0 hgt ih =>
    rw [it_bytes_chunks, if_neg h0, dif_neg hgt]
    have hdne : xs.drop c ≠ [] :=
      List.ne_nil_of_length_pos (by simp [List.length_drop]; omega)
    have hrec := it_bytes_chunks_ne_nil c hc _ hdne
    cases hcc : it_bytes_chunks c (xs.drop c) with
    | nil => exact absurd hcc hrec
    | cons y ys =>
      rw [List.getLast?_cons_cons, ← hcc, ih hdne]
      have hmod : (xs.drop c).length % c = xs.length % c := by
        rw [List.length_drop]
        conv_rhs => rw [show xs.length = (xs.length - c) + c by omega]
        rw [Nat.add_mod_right]
      rw [List.length_drop] at hmod
      rw [List.length_drop, hmod]

/-- C6: for every regular file content and every chunk size greater than
zero, concatenating in order the chunks yielded by `it_bytes_sync` /
`it_bytes` reproduces the content exactly; every yielded chunk except
possibly the last has length exactly the chunk size, every chunk is
nonempty and no longer than it; and for a 10000-byte file read with chunk
size 4096 the final chunk has length 1808, which is shorter than 4096. -/
theorem it_bytes_chunks_spec (c : Nat) (xs : List Nat) (hc : 0 < c) :
    (it_bytes_chunks c xs).flatten = xs ∧
    (∀ l ∈ (it_bytes_chunks c xs).dropLast, l.length = c) ∧
    (∀ l ∈ it_bytes_chunks c xs, 0 < l.length ∧ l.length ≤ c) ∧
    (∀ b : Nat,
      (it_bytes_chunks 4096 (List.replicate 10000 b)).getLast?.map List.length =
        some 1808 ∧ 1808 < 4096) := by
  refine ⟨it_bytes_chunks_flatten c hc xs, it_bytes_chunks_dropLast_len c hc xs,
    it_bytes_chunks_len_le c hc xs, fun b => ⟨?_, by omega⟩⟩
  have h := it_bytes_chunks_getLast_len 4096 (by omega) (List.replicate 10000 b)
    (List.ne_nil_of_length_pos (by rw [List.length_replicate]; omega))
  rw [List.length_replicate] at h
  rw [show (10000 : Nat) % 4096 = 1808 from by norm_num, if_neg (by omega)] at h
  exact h

/-- Witness for C6 at chunk size 2 over a 3-byte content. -/
theorem it_bytes_chunks_spec_witness :
    (it_bytes_chunks 2 [7, 8, 9]).flatten = [7, 8, 9] :=
  (it_bytes_chunks_spec 2 [7, 8, 9] (by omega)).1

-- C9.

/-- C9 counterexample: with a watchable path whose very first accessibility
check succeeds, the run still begins by creating the watcher — the first
observable action is the subscription, not a check, and a subscription is
made (and then closed) even though the initial check succeeds, contrary to
the claim that the subscription happens only after a failed first check. -/
theorem until_accessible_subscribes_first :
    until_accessible true true [] false =
      (.success, [.watchStart, .check true, .watchClose]) ∧
    (until_accessible true true [] false).2.head? = some UAAct.watchStart ∧
    UAAct.watchStart ∈ (until_accessible true true [] false).2 := by
  refine ⟨rfl, rfl, ?_⟩
  decide

/-- The notification loop of `until_accessible` processes exactly the
failed re-checks up to the first success, with the callback after each,
stopping at the first successful re-check or at the abort. -/
theorem uaLoop_spec (notifs : List Bool) (thenAborts : Bool) :
    uaLoop notifs thenAborts =
      (let failed := (notifs.takeWhile (fun b => !b)).length
       let tr := (List.replicate failed [UAAct.check false, UAAct.callbackRun]).flatten
       if failed < notifs.length then
         (UAOutcome.success, tr ++ [UAAct.check true, UAAct.watchClose])
       else if thenAborts then (UAOutcome.abortedErr, tr ++ [UAAct.watchClose])
       else (UAOutcome.waits, tr)) := by
  induction notifs with
  | nil => cases thenAborts <;> simp [uaLoop]
  | cons b rest ih =>
    cases b
    · simp only [uaLoop, ih, List.takeWhile_cons, Bool.not_false, if_true,
        List.length_cons, List.replicate_succ, List.flatten_cons]
      by_cases hlt : (rest.takeWhile (fun x => !x)).length < rest.length
      · simp [hlt, Nat.add_lt_add_iff_right]
      · by_cases ha : thenAborts <;> simp [hlt, ha, Nat.add_lt_add_iff_right]
    · simp [uaLoop, List.takeWhile_cons]

/-- C9 as amended: `until_accessible` first subscribes to filesystem change
notifications (`fs.watch` runs before any check, so an unwatchable path
fails without a single accessibility check); then it performs one
accessibility check and returns immediately — closing the watcher — when it
succeeds; otherwise it re-checks after each notification, invoking the
optional callback after each failed re-check, and stops, processing no
further notifications, as soon as a re-check succeeds or the cancellation
signal fires. -/
theorem until_accessible_amended (watchable first : Bool) (notifs : List Bool)
    (thenAborts : Bool) :
    until_accessible watchable first notifs thenAborts =
      ua_amended_spec watchable first notifs thenAborts := by
  cases watchable with
  | false => rfl
  | true =>
    cases first with
    | true => rfl
    | false =>
      simp only [until_accessible, ua_amended_spec, uaLoop_spec, Bool.not_true,
        Bool.false_eq_true, if_false, Bool.not_false, if_true]
      by_cases hlt : (notifs.takeWhile (fun b => !b)).length < notifs.length
      · simp [hlt]
      · by_cases ha : thenAborts <;> simp [hlt, ha]

-- C10.

/-- C10: for File, Folder and SymbolicLink (whose `move`/`rename` bodies
are identical and shared by the embedding), the sync and async forms of
move and rename assign the instance's location only after the underlying
rename succeeds: whenever the call returns an error, the instance the
caller holds is unchanged, still pointing at its original path; and
whenever it succeeds, the new location is exactly the computed destination
of the successful OS rename. -/
theorem move_rename_location_update (fs : FS) (inst into : RoadInst)
    (dst : String)
    (_hcls : inst.cls = Kind.file ∨ inst.cls = Kind.folder ∨
      inst.cls = Kind.symbolicLink) :
    ((move_sync fs inst into).1.isOk = false → (move_sync fs inst into).2.1 = inst) ∧
    ((move_async fs inst into).1.isOk = false → (move_async fs inst into).2.1 = inst) ∧
    ((rename_sync fs inst dst).1.isOk = false → (rename_sync fs inst dst).2.1 = inst) ∧
    ((rename_async fs inst dst).1.isOk = false → (rename_async fs inst dst).2.1 = inst) ∧
    ((move_sync fs inst into).1.isOk = true →
      (move_sync fs inst into).2.1.pointsTo =
        joinP into.pointsTo (basenameP inst.pointsTo) ∧
      renameFS fs inst.pointsTo (joinP into.pointsTo (basenameP inst.pointsTo)) =
        .ok (move_sync fs inst into).2.2) ∧
    ((rename_sync fs inst dst).1.isOk = true →
      ∃ par, road_ctor fs Kind.folder (dirnameP inst.pointsTo) = .ok par ∧
        (rename_sync fs inst dst).2.1.pointsTo = joinP par.pointsTo dst ∧
        renameFS fs inst.pointsTo (joinP par.pointsTo dst) =
          .ok (rename_sync fs inst dst).2.2) := by
  by_cases hm : inst.mutable
  · refine ⟨?_, ?_, ?_, ?_, ?_, ?_⟩
    · cases hr : renameFS fs inst.pointsTo (joinP into.pointsTo (basenameP inst.pointsTo)) with
      | ok fs2 => simp [move_sync, assert_mutable, Except.isOk, Except.toBool, hm, hr]
      | error e => simp [move_sync, assert_mutable, Except.isOk, Except.toBool, hm, hr]
    · cases hr : renameFS fs inst.pointsTo (joinP into.pointsTo (basenameP inst.pointsTo)) with
      | ok fs2 => simp [move_async, assert_mutable, Except.isOk, Except.toBool, hm, hr]
      | error e => simp [move_async, assert_mutable, Except.isOk, Except.toBool, hm, hr]
    · cases hp : road_ctor fs Kind.folder (dirnameP inst.pointsTo) with
      | error e => simp [rename_sync, assert_mutable, Except.isOk, Except.toBool, hm, hp]
      | ok par =>
        cases hr : renameFS fs inst.pointsTo (joinP par.pointsTo dst) with
        | ok fs2 => simp [rename_sync, assert_mutable, Except.isOk, Except.toBool, hm, hp, hr]
        | error e => simp [rename_sync, assert_mutable, Except.isOk, Except.toBool, hm, hp, hr]
    · cases hp : road_ctor fs Kind.folder (dirnameP inst.pointsTo) with
      | error e => simp [rename_async, assert_mutable, Except.isOk, Except.toBool, hm, hp]
      | ok par =>
        cases hr : renameFS fs inst.pointsTo (joinP par.pointsTo dst) with
        | ok fs2 => simp [rename_async, assert_mutable, Except.isOk, Except.toBool, hm, hp, hr]
        | error e => simp [rename_async, assert_mutable, Except.isOk, Except.toBool, hm, hp, hr]
    · cases hr : renameFS fs inst.pointsTo (joinP into.pointsTo (basenameP inst.pointsTo)) with
      | ok fs2 => simp [move_sync, assert_mutable, Except.isOk, Except.toBool, hm, hr]
      | error e => simp [move_sync, assert_mutable, Except.isOk, Except.toBool, hm, hr]
    · cases hp : road_ctor fs Kind.folder (dirnameP inst.pointsTo) with
      | error e => simp [rename_sync, assert_mutable, Except.isOk, Except.toBool, hm, hp]
      | ok par =>
        cases hr : renameFS fs inst.pointsTo (joinP par.pointsTo dst) with
        | ok fs2 =>
          intro _
          exact ⟨par, rfl, by simp [rename_sync, assert_mutable, Except.isOk, Except.toBool, hm, hp, hr]⟩
        | error e => simp [rename_sync, assert_mutable, Except.isOk, Except.toBool, hm, hp, hr]
  · refine ⟨?_, ?_, ?_, ?_, ?_, ?_⟩ <;>
      simp [move_sync, move_async, rename_sync, rename_async, assert_mutable, Except.isOk, Except.toBool, hm]

/-- Witness for C10: on the empty filesystem the rename fails with
`ENOENT`, and the failed move leaves the instance at its original path. -/
theorem move_rename_location_update_witness :
    (move_sync emptyFS instF instD).2.1 = instF :=
  (move_rename_location_update emptyFS instF instD "x" (Or.inl rfl)).1 rfl

end Instr
